import Mathlib

/-!
# AIE math helpers (`MathHelper.h`): vectors and the 4x4 matrix

A shallow embedding of the `AIE` namespace of
`WIP-Graphics/WIP-Graphics/include/MathHelper.h`.

* `float` is modelled by an arbitrary field `F` (exact arithmetic); the
  definitions are computable and can be run at `F = ℚ`.  Statements that need
  the order or a square root are made over a linear ordered field or over `ℝ`.
  Rounding, overflow and underflow of binary32 are not part of the model, so
  the general statements below are chosen to hold for the binary32 operations
  as well: both sides of an equation are the same computation, up to products
  and sums with a literal `0` or `1`.  The two exceptions are the statements
  that are about exact arithmetic by their own wording (`ViewLookAt` against
  `SetFrame`, with the lemmas that serve it, and the associativity of the
  products).
* The libm functions `sqrtf`, `sinf`, `cosf`, `tanf` are parameters of the
  definitions that call them; theorems about magnitudes instantiate `sqrtf`
  with `Real.sqrt`.
* A member function that mutates `*this` takes the old value as `self` and
  returns the new value.
* The anonymous union of `mat4` is modelled by the sixteen named scalars
  `_11 .. _44`; the views `row0 .. row3` and `mm[i][j]` are accessors on them,
  and an assignment to a row is `setRow0 .. setRow3`.
-/

namespace AIE

/-- A 4D vector class, used as a 3D homogeneous vector (`class vec4`). -/
structure vec4 (F : Type) where
  x : F
  y : F
  z : F
  w : F
deriving DecidableEq

/-- A 2D vector class (`class vec2`). -/
structure vec2 (F : Type) where
  x : F
  y : F
deriving DecidableEq

/-- A 4D matrix class (`class mat4`), as its sixteen row-major scalars; the
structure constructor is the sixteen-argument constructor of the source. -/
structure mat4 (F : Type) where
  _11 : F
  _12 : F
  _13 : F
  _14 : F
  _21 : F
  _22 : F
  _23 : F
  _24 : F
  _31 : F
  _32 : F
  _33 : F
  _34 : F
  _41 : F
  _42 : F
  _43 : F
  _44 : F
deriving DecidableEq

section Field

variable {F : Type} [Field F]

/-! ## vec4 -/

/-- Source: `void vec4::Normalise()`. -/
def vec4.Normalise (sqrtf : F → F) (self : vec4 F) : vec4 F :=
  let fMag := sqrtf (self.x * self.x + self.y * self.y + self.z * self.z)
  { x := self.x / fMag, y := self.y / fMag, z := self.z / fMag, w := 0 }

/-- Source: `float vec4::MagnitudeSqr() const`. -/
def vec4.MagnitudeSqr (self : vec4 F) : F :=
  self.x * self.x + self.y * self.y + self.z * self.z

/-- Source: `void vec4::Invert()`. -/
def vec4.Invert (self : vec4 F) : vec4 F :=
  { self with x := self.x * -1, y := self.y * -1, z := self.z * -1 }

/-- Source: `float vec4::Dot(const vec4& v) const`. -/
def vec4.Dot (self v : vec4 F) : F :=
  self.x * v.x + self.y * v.y + self.z * v.z

/-- Source: `vec4 vec4::Cross(const vec4& v) const`. -/
def vec4.Cross (self v : vec4 F) : vec4 F :=
  vec4.mk (self.y * v.z - v.y * self.z) (self.z * v.x - v.z * self.x)
    (self.x * v.y - v.x * self.y) 0

/-- Source: `vec4 vec4::operator + (const vec4& v) const`. -/
def vec4.operator_add (self v : vec4 F) : vec4 F :=
  vec4.mk (self.x + v.x) (self.y + v.y) (self.z + v.z) self.w

/-- Source: `vec4& vec4::operator += (const vec4& v)`. -/
def vec4.operator_add_assign (self v : vec4 F) : vec4 F :=
  { self with x := self.x + v.x, y := self.y + v.y, z := self.z + v.z }

/-- Source: `vec4& vec4::operator -= (const vec4& v)`. -/
def vec4.operator_sub_assign (self v : vec4 F) : vec4 F :=
  { self with x := self.x - v.x, y := self.y - v.y, z := self.z - v.z }

/-- Source: `vec4 vec4::operator - (const vec4& v) const`. -/
def vec4.operator_sub (self v : vec4 F) : vec4 F :=
  vec4.mk (self.x - v.x) (self.y - v.y) (self.z - v.z) self.w

/-- Source: `vec4 vec4::operator * (float f) const`. -/
def vec4.operator_mul (self : vec4 F) (f : F) : vec4 F :=
  vec4.mk (self.x * f) (self.y * f) (self.z * f) 0

/-- Source: `vec4& vec4::operator *= (float f)`. -/
def vec4.operator_mul_assign (self : vec4 F) (f : F) : vec4 F :=
  { self with x := self.x * f, y := self.y * f, z := self.z * f }

/-- Source: `vec4 vec4::operator - () const` (unary minus). -/
def vec4.operator_neg (self : vec4 F) : vec4 F :=
  vec4.mk (-self.x) (-self.y) (-self.z) self.w

/-- Source: `vec4::operator float* ()`, which returns `&x`, followed by an
index: component `i` of the vector in declared order `x, y, z, w`. -/
def vec4.operator_float_ptr (self : vec4 F) (i : Fin 4) : F :=
  match i with
  | 0 => self.x
  | 1 => self.y
  | 2 => self.z
  | 3 => self.w

/-! ## vec2 -/

/-- Source: `void vec2::Normalise()`. -/
def vec2.Normalise (sqrtf : F → F) (self : vec2 F) : vec2 F :=
  let fMag := sqrtf (self.x * self.x + self.y * self.y)
  { x := self.x / fMag, y := self.y / fMag }

/-- Source: `float vec2::MagnitudeSqr() const`. -/
def vec2.MagnitudeSqr (self : vec2 F) : F :=
  self.x * self.x + self.y * self.y

/-- Source: `void vec2::Invert()`. -/
def vec2.Invert (self : vec2 F) : vec2 F :=
  { x := self.x * -1, y := self.y * -1 }

/-- Source: `float vec2::Dot(const vec2& v) const`. -/
def vec2.Dot (self v : vec2 F) : F :=
  self.x * v.x + self.y * v.y

/-- Source: `vec2 vec2::operator + (const vec2& v) const`. -/
def vec2.operator_add (self v : vec2 F) : vec2 F :=
  vec2.mk (self.x + v.x) (self.y + v.y)

/-- Source: `vec2 vec2::operator - (const vec2& v) const`. -/
def vec2.operator_sub (self v : vec2 F) : vec2 F :=
  vec2.mk (self.x - v.x) (self.y - v.y)

/-- Source: `vec2 vec2::operator * (float f) const`. -/
def vec2.operator_mul (self : vec2 F) (f : F) : vec2 F :=
  vec2.mk (self.x * f) (self.y * f)

/-- Source: `vec2& vec2::operator -= (const vec2& v)`. -/
def vec2.operator_sub_assign (self v : vec2 F) : vec2 F :=
  { x := self.x - v.x, y := self.y - v.y }

/-- Source: `vec2& vec2::operator += (const vec2& v)`. -/
def vec2.operator_add_assign (self v : vec2 F) : vec2 F :=
  { x := self.x + v.x, y := self.y + v.y }

/-- Source: `vec2& vec2::operator *= (float f)`. -/
def vec2.operator_mul_assign (self : vec2 F) (f : F) : vec2 F :=
  { x := self.x * f, y := self.y * f }

/-- Source: `vec2 vec2::operator - () const` (unary minus). -/
def vec2.operator_neg (self : vec2 F) : vec2 F :=
  vec2.mk (-self.x) (-self.y)

/-! ## Free functions -/

/-- Source: `float Dot(const vec2& v0, const vec2& v1)`. -/
def Dot2 (v0 v1 : vec2 F) : F := v0.Dot v1

/-- Source: `float Dot(const vec4& v0, const vec4& v1)`. -/
def Dot (v0 v1 : vec4 F) : F := v0.Dot v1

/-- Source: `vec4 Cross(const vec4& v0, const vec4& v1)`. -/
def Cross (v0 v1 : vec4 F) : vec4 F := v0.Cross v1

/-- Source: `float DistSqr(const vec2& v0, const vec2& v1)`. -/
def DistSqr2 (v0 v1 : vec2 F) : F := (v0.operator_sub v1).MagnitudeSqr

/-- Source: `float DistSqr(const vec4& v0, const vec4& v1)`. -/
def DistSqr (v0 v1 : vec4 F) : F := (v0.operator_sub v1).MagnitudeSqr

/-! ## mat4: the views of the union -/

/-- The view `row0` of the union: the first four scalars as a `vec4`. -/
def mat4.row0 (self : mat4 F) : vec4 F := vec4.mk self._11 self._12 self._13 self._14

/-- The view `row1` of the union. -/
def mat4.row1 (self : mat4 F) : vec4 F := vec4.mk self._21 self._22 self._23 self._24

/-- The view `row2` of the union. -/
def mat4.row2 (self : mat4 F) : vec4 F := vec4.mk self._31 self._32 self._33 self._34

/-- The view `row3` of the union. -/
def mat4.row3 (self : mat4 F) : vec4 F := vec4.mk self._41 self._42 self._43 self._44

/-- The assignment `row0 = v`. -/
def mat4.setRow0 (self : mat4 F) (v : vec4 F) : mat4 F :=
  { self with _11 := v.x, _12 := v.y, _13 := v.z, _14 := v.w }

/-- The assignment `row1 = v`. -/
def mat4.setRow1 (self : mat4 F) (v : vec4 F) : mat4 F :=
  { self with _21 := v.x, _22 := v.y, _23 := v.z, _24 := v.w }

/-- The assignment `row2 = v`. -/
def mat4.setRow2 (self : mat4 F) (v : vec4 F) : mat4 F :=
  { self with _31 := v.x, _32 := v.y, _33 := v.z, _34 := v.w }

/-- The assignment `row3 = v`. -/
def mat4.setRow3 (self : mat4 F) (v : vec4 F) : mat4 F :=
  { self with _41 := v.x, _42 := v.y, _43 := v.z, _44 := v.w }

/-- The view `mm[i][j]` of the union (row `i`, column `j`). -/
def mat4.mm (self : mat4 F) (i j : Fin 4) : F :=
  match i, j with
  | 0, 0 => self._11
  | 0, 1 => self._12
  | 0, 2 => self._13
  | 0, 3 => self._14
  | 1, 0 => self._21
  | 1, 1 => self._22
  | 1, 2 => self._23
  | 1, 3 => self._24
  | 2, 0 => self._31
  | 2, 1 => self._32
  | 2, 2 => self._33
  | 2, 3 => self._34
  | 3, 0 => self._41
  | 3, 1 => self._42
  | 3, 2 => self._43
  | 3, 3 => self._44

/-! ## mat4: member functions -/

/-- Source: `void mat4::SetFrame(const vec4& position, const vec4& forward, const vec4& up)`. -/
def mat4.SetFrame (sqrtf : F → F) (self : mat4 F) (position forward up : vec4 F) : mat4 F :=
  let vForward := forward.Normalise sqrtf
  let vRight := (up.Cross vForward).Normalise sqrtf
  let vUp := (vForward.Cross vRight).Normalise sqrtf
  (((self.setRow0 vRight).setRow1 vUp).setRow2 vForward).setRow3 position

/-- Source: `mat4 mat4::ToViewMatrix()`: every scalar of the local `view` is assigned
before it is returned. -/
def mat4.ToViewMatrix (self : mat4 F) : mat4 F :=
  { _11 := self.row0.x
    _21 := self.row0.y
    _31 := self.row0.z
    _41 := -(self.row0.Dot self.row3)
    _12 := self.row1.x
    _22 := self.row1.y
    _32 := self.row1.z
    _42 := -(self.row1.Dot self.row3)
    _13 := self.row2.x
    _23 := self.row2.y
    _33 := self.row2.z
    _43 := -(self.row2.Dot self.row3)
    _14 := 0
    _24 := 0
    _34 := 0
    _44 := 1 }

/-- Source: `void mat4::ViewLookAt(const vec4& eye, const vec4& to, const vec4& up)`. -/
def mat4.ViewLookAt (sqrtf : F → F) (self : mat4 F) (eye to_ up : vec4 F) : mat4 F :=
  let vForward := (to_.operator_sub eye).Normalise sqrtf
  let vLeft := (up.Cross vForward).Normalise sqrtf
  let vUp := vForward.Cross vLeft
  { self with
    _11 := vLeft.x
    _21 := vLeft.y
    _31 := vLeft.z
    _41 := -(vLeft.Dot eye)
    _12 := vUp.x
    _22 := vUp.y
    _32 := vUp.z
    _42 := -(vUp.Dot eye)
    _13 := vForward.x
    _23 := vForward.y
    _33 := vForward.z
    _43 := -(vForward.Dot eye)
    _14 := 0
    _24 := 0
    _34 := 0
    _44 := 1 }

/-- Source: `void mat4::Orthographic(float a_fLeft, float a_fRight, float a_fTop,
float a_fBottom, float a_fNear, float a_fFar)`. -/
def mat4.Orthographic (self : mat4 F)
    (a_fLeft a_fRight a_fTop a_fBottom a_fNear a_fFar : F) : mat4 F :=
  let deltaX := a_fRight - a_fLeft
  let deltaY := a_fTop - a_fBottom
  let deltaZ := a_fFar - a_fNear
  { self with
    _11 := 2 / deltaX
    _12 := 0
    _13 := 0
    _14 := 0
    _21 := 0
    _22 := 2 / deltaY
    _23 := 0
    _24 := 0
    _31 := 0
    _32 := 0
    _33 := -2 / deltaZ
    _34 := 0
    _41 := -((a_fRight + a_fLeft) / deltaX)
    _42 := -((a_fTop + a_fBottom) / deltaY)
    _43 := -((a_fFar + a_fNear) / deltaZ)
    _44 := 1 }

/-- Source: `void mat4::Perspective(float a_fUpFOV, float a_fAspectRatio, float a_fNear,
float a_fFar)`. -/
def mat4.Perspective (tanf : F → F) (self : mat4 F)
    (a_fUpFOV a_fAspectRatio a_fNear a_fFar : F) : mat4 F :=
  let halfAngleRadians := 0.5 * a_fUpFOV
  let cot := 1 / tanf halfAngleRadians
  { self with
    _11 := cot / a_fAspectRatio
    _12 := 0
    _13 := 0
    _14 := 0
    _21 := 0
    _22 := cot
    _23 := 0
    _24 := 0
    _31 := 0
    _32 := 0
    _33 := a_fFar / (a_fFar - a_fNear)
    _34 := 1
    _41 := 0
    _42 := 0
    _43 := a_fNear * a_fFar / (a_fNear - a_fFar)
    _44 := 0 }

/-- Source: `mat4 mat4::Transpose() const`. -/
def mat4.Transpose (self : mat4 F) : mat4 F :=
  mat4.mk self._11 self._21 self._31 self._41
    self._12 self._22 self._32 self._42
    self._13 self._23 self._33 self._43
    self._14 self._24 self._34 self._44

/-- Source: `void mat4::RotateX(float rad)`. -/
def mat4.RotateX (sinf cosf : F → F) (self : mat4 F) (rad : F) : mat4 F :=
  { self with
    _11 := 1, _12 := 0, _13 := 0, _14 := 0
    _21 := 0, _22 := cosf rad, _23 := -sinf rad, _24 := 0
    _31 := 0, _32 := sinf rad, _33 := cosf rad, _34 := 0
    _41 := 0, _42 := 0, _43 := 0, _44 := 1 }

/-- Source: `void mat4::RotateY(float rad)`. -/
def mat4.RotateY (sinf cosf : F → F) (self : mat4 F) (rad : F) : mat4 F :=
  { self with
    _11 := cosf rad, _12 := 0, _13 := -sinf rad, _14 := 0
    _21 := 0, _22 := 1, _23 := 0, _24 := 0
    _31 := sinf rad, _32 := 0, _33 := cosf rad, _34 := 0
    _41 := 0, _42 := 0, _43 := 0, _44 := 1 }

/-- Source: `void mat4::RotateZ(float rad)`. -/
def mat4.RotateZ (sinf cosf : F → F) (self : mat4 F) (rad : F) : mat4 F :=
  { self with
    _11 := cosf rad, _12 := -sinf rad, _13 := 0, _14 := 0
    _21 := sinf rad, _22 := cosf rad, _23 := 0, _24 := 0
    _31 := 0, _32 := 0, _33 := 1, _34 := 0
    _41 := 0, _42 := 0, _43 := 0, _44 := 1 }

/-- Source: `void mat4::RotateAxis(float rad, const vec4& axis)`. -/
def mat4.RotateAxis (sinf cosf : F → F) (self : mat4 F) (rad : F) (axis : vec4 F) : mat4 F :=
  let fSin := sinf rad
  let fCos := cosf rad
  let a := 1 - fCos
  let ax := a * axis.x
  let ay := a * axis.y
  let az := a * axis.z
  { self with
    _11 := ax * axis.x + fCos
    _12 := ax * axis.y + axis.z * fSin
    _13 := ax * axis.z - axis.y * fSin
    _14 := 0
    _21 := ay * axis.x - axis.z * fSin
    _22 := ay * axis.y + fCos
    _23 := ay * axis.z + axis.x * fSin
    _24 := 0
    _31 := az * axis.x + axis.y * fSin
    _32 := az * axis.y - axis.x * fSin
    _33 := az * axis.z + fCos
    _34 := 0
    _41 := 0
    _42 := 0
    _43 := 0
    _44 := 1 }

/-- Source: `void mat4::Scale( const vec2& v2Scale )`. -/
def mat4.Scale2 (self : mat4 F) (v2Scale : vec2 F) : mat4 F :=
  { self with
    _11 := v2Scale.x, _12 := 0, _13 := 0, _14 := 0
    _21 := 0, _22 := v2Scale.y, _23 := 0, _24 := 0
    _31 := 0, _32 := 0, _33 := 1, _34 := 0
    _41 := 0, _42 := 0, _43 := 0, _44 := 1 }

/-- Source: `void mat4::Scale( const vec4& v4Scale )`. -/
def mat4.Scale (self : mat4 F) (v4Scale : vec4 F) : mat4 F :=
  { self with
    _11 := v4Scale.x, _12 := 0, _13 := 0, _14 := 0
    _21 := 0, _22 := v4Scale.y, _23 := 0, _24 := 0
    _31 := 0, _32 := 0, _33 := v4Scale.z, _34 := 0
    _41 := 0, _42 := 0, _43 := 0, _44 := 1 }

/-- Source: `mat4 mat4::operator * (const mat4& a_rRHS) const`. -/
def mat4.operator_mul (self a_rRHS : mat4 F) : mat4 F :=
  mat4.mk
    (self.mm 0 0 * a_rRHS.mm 0 0 + self.mm 0 1 * a_rRHS.mm 1 0 + self.mm 0 2 * a_rRHS.mm 2 0 + self.mm 0 3 * a_rRHS.mm 3 0)
    (self.mm 0 0 * a_rRHS.mm 0 1 + self.mm 0 1 * a_rRHS.mm 1 1 + self.mm 0 2 * a_rRHS.mm 2 1 + self.mm 0 3 * a_rRHS.mm 3 1)
    (self.mm 0 0 * a_rRHS.mm 0 2 + self.mm 0 1 * a_rRHS.mm 1 2 + self.mm 0 2 * a_rRHS.mm 2 2 + self.mm 0 3 * a_rRHS.mm 3 2)
    (self.mm 0 0 * a_rRHS.mm 0 3 + self.mm 0 1 * a_rRHS.mm 1 3 + self.mm 0 2 * a_rRHS.mm 2 3 + self.mm 0 3 * a_rRHS.mm 3 3)
    (self.mm 1 0 * a_rRHS.mm 0 0 + self.mm 1 1 * a_rRHS.mm 1 0 + self.mm 1 2 * a_rRHS.mm 2 0 + self.mm 1 3 * a_rRHS.mm 3 0)
    (self.mm 1 0 * a_rRHS.mm 0 1 + self.mm 1 1 * a_rRHS.mm 1 1 + self.mm 1 2 * a_rRHS.mm 2 1 + self.mm 1 3 * a_rRHS.mm 3 1)
    (self.mm 1 0 * a_rRHS.mm 0 2 + self.mm 1 1 * a_rRHS.mm 1 2 + self.mm 1 2 * a_rRHS.mm 2 2 + self.mm 1 3 * a_rRHS.mm 3 2)
    (self.mm 1 0 * a_rRHS.mm 0 3 + self.mm 1 1 * a_rRHS.mm 1 3 + self.mm 1 2 * a_rRHS.mm 2 3 + self.mm 1 3 * a_rRHS.mm 3 3)
    (self.mm 2 0 * a_rRHS.mm 0 0 + self.mm 2 1 * a_rRHS.mm 1 0 + self.mm 2 2 * a_rRHS.mm 2 0 + self.mm 2 3 * a_rRHS.mm 3 0)
    (self.mm 2 0 * a_rRHS.mm 0 1 + self.mm 2 1 * a_rRHS.mm 1 1 + self.mm 2 2 * a_rRHS.mm 2 1 + self.mm 2 3 * a_rRHS.mm 3 1)
    (self.mm 2 0 * a_rRHS.mm 0 2 + self.mm 2 1 * a_rRHS.mm 1 2 + self.mm 2 2 * a_rRHS.mm 2 2 + self.mm 2 3 * a_rRHS.mm 3 2)
    (self.mm 2 0 * a_rRHS.mm 0 3 + self.mm 2 1 * a_rRHS.mm 1 3 + self.mm 2 2 * a_rRHS.mm 2 3 + self.mm 2 3 * a_rRHS.mm 3 3)
    (self.mm 3 0 * a_rRHS.mm 0 0 + self.mm 3 1 * a_rRHS.mm 1 0 + self.mm 3 2 * a_rRHS.mm 2 0 + self.mm 3 3 * a_rRHS.mm 3 0)
    (self.mm 3 0 * a_rRHS.mm 0 1 + self.mm 3 1 * a_rRHS.mm 1 1 + self.mm 3 2 * a_rRHS.mm 2 1 + self.mm 3 3 * a_rRHS.mm 3 1)
    (self.mm 3 0 * a_rRHS.mm 0 2 + self.mm 3 1 * a_rRHS.mm 1 2 + self.mm 3 2 * a_rRHS.mm 2 2 + self.mm 3 3 * a_rRHS.mm 3 2)
    (self.mm 3 0 * a_rRHS.mm 0 3 + self.mm 3 1 * a_rRHS.mm 1 3 + self.mm 3 2 * a_rRHS.mm 2 3 + self.mm 3 3 * a_rRHS.mm 3 3)

/-- Source: `vec4 mat4::operator * (const vec4& v) const`. -/
def mat4.operator_mul_vec (self : mat4 F) (v : vec4 F) : vec4 F :=
  vec4.mk
    (self.mm 0 0 * v.x + self.mm 0 1 * v.y + self.mm 0 2 * v.z + self.mm 0 3 * v.w)
    (self.mm 1 0 * v.x + self.mm 1 1 * v.y + self.mm 1 2 * v.z + self.mm 1 3 * v.w)
    (self.mm 2 0 * v.x + self.mm 2 1 * v.y + self.mm 2 2 * v.z + self.mm 2 3 * v.w)
    (self.mm 3 0 * v.x + self.mm 3 1 * v.y + self.mm 3 2 * v.z + self.mm 3 3 * v.w)

/-- Source: `void mat4::RotationEuler(float bank, float heading, float attitude)`;
the locals `x`, `y`, `z` are default-constructed, which leaves their scalars
unspecified, so their initial contents are the parameters `x0`, `y0`, `z0`. -/
def mat4.RotationEuler (sinf cosf : F → F) (_self x0 y0 z0 : mat4 F)
    (bank heading attitude : F) : mat4 F :=
  let x := x0.RotateX sinf cosf bank
  let y := y0.RotateY sinf cosf heading
  let z := z0.RotateZ sinf cosf attitude
  (x.operator_mul y).operator_mul z

end Field

section Ordered

variable {F : Type} [LinearOrderedField F]

/-- Source: `bool EqualWithinTolerance(const vec2& v0, const vec2& v1, float tolerance)`
(the default value `0.0001f` of `tolerance` is the caller's to pass). -/
def EqualWithinTolerance2 (v0 v1 : vec2 F) (tolerance : F) : Bool :=
  decide ((v0.operator_sub v1).MagnitudeSqr < tolerance * tolerance)

/-- Source: `bool EqualWithinTolerance(const vec4& v0, const vec4& v1, float tolerance)`
(the default value `0.0001f` of `tolerance` is the caller's to pass). -/
def EqualWithinTolerance (v0 v1 : vec4 F) (tolerance : F) : Bool :=
  decide ((v0.operator_sub v1).MagnitudeSqr < tolerance * tolerance)

end Ordered

section Plane

variable {F : Type} [Field F]

/-- Modelled from the spec: the vertex structure `Vertex` of `Utilities.h`,
which is not among the sources: a `position` (`vec4`, offset 0) followed by a
`uv` (`vec2`, offset 16). -/
structure Vertex (F : Type) where
  position : vec4 F
  uv : vec2 F
deriving DecidableEq

/-- Source: the body of the inner loop of the first loop nest of
`AIE::BuildArbitraryPlane` (`Utilities.cpp`), on the vector `aoVertices`.
`Vertex()` leaves its scalars unspecified, so the pushed value is the
parameter `dflt`.  `std::vector::operator[]` is unchecked: a subscript outside
the vector is undefined behaviour, which is the result `none`.  `int` is
modelled by `Int` (the products are taken to fit an `int`). -/
def BuildArbitraryPlane.vertexBody (a_fSize halfSize : F) (a_iVertsWidth a_iVertsLength : Int)
    (dflt : Vertex F) (aoVertices : List (Vertex F)) (z x : Int) : Option (List (Vertex F)) :=
  let aoVertices1 := aoVertices ++ [dflt]
  let xPos : F := if x = 0 then 0 else a_fSize * ((x : F) / ((a_iVertsWidth - 1 : Int) : F))
  let zPos : F := if z = 0 then 0 else a_fSize * ((z : F) / ((a_iVertsLength - 1 : Int) : F))
  let i := z * a_iVertsLength + x
  if 0 ≤ i ∧ i.toNat < aoVertices1.length then
    let aoVertices2 := aoVertices1.set i.toNat
      { aoVertices1.getD i.toNat dflt with
        position := vec4.mk (xPos - halfSize) 0 (zPos - halfSize) 1 }
    let u : F := if x = 0 then 0 else xPos / a_fSize
    let v : F := if z = 0 then 0 else zPos / a_fSize
    some (aoVertices2.set i.toNat { aoVertices2.getD i.toNat dflt with uv := vec2.mk u v })
  else
    none

/-- Source: the first loop nest of `AIE::BuildArbitraryPlane`, after the two
clamps: `for z in [0, a_iVertsLength)`, `for x in [0, a_iVertsWidth)`, starting
from the empty vector. -/
def BuildArbitraryPlane.vertexPass (a_fSize : F) (a_iVertsWidth a_iVertsLength : Int)
    (dflt : Vertex F) : Option (List (Vertex F)) :=
  let a_iVertsWidth := if a_iVertsWidth < 2 then 2 else a_iVertsWidth
  let a_iVertsLength := if a_iVertsLength < 2 then 2 else a_iVertsLength
  let halfSize := a_fSize / 2
  (List.range a_iVertsLength.toNat).foldlM
    (fun aoVertices z =>
      (List.range a_iVertsWidth.toNat).foldlM
        (fun aoVertices x =>
          BuildArbitraryPlane.vertexBody a_fSize halfSize a_iVertsWidth a_iVertsLength dflt
            aoVertices (z : Int) (x : Int))
        aoVertices)
    []

/-- Source: the second loop nest of `AIE::BuildArbitraryPlane`, which pushes
the six indices of the two triangles of each cell onto `auiIndex`. -/
def BuildArbitraryPlane.indexPass (a_iVertsWidth a_iVertsLength : Int) : List Int :=
  let a_iVertsWidth := if a_iVertsWidth < 2 then 2 else a_iVertsWidth
  let a_iVertsLength := if a_iVertsLength < 2 then 2 else a_iVertsLength
  (List.range (a_iVertsLength - 1).toNat).foldl
    (fun auiIndex z =>
      (List.range (a_iVertsWidth - 1).toNat).foldl
        (fun auiIndex x =>
          auiIndex ++
            [((z : Int) * a_iVertsWidth) + (x : Int),
              (((z : Int) * a_iVertsWidth) + (x : Int)) + 1,
              (((z : Int) + 1) * a_iVertsWidth) + (x : Int),
              (((z : Int) * a_iVertsWidth) + (x : Int)) + 1,
              (((z : Int) + 1) * a_iVertsWidth) + (x : Int) + 1,
              (((z : Int) + 1) * a_iVertsWidth) + (x : Int)])
        auiIndex)
    []

/-- Source: `void AIE::BuildArbitraryPlane(float a_fSize, int a_iVertsWidth,
int a_iVertsLength, ...)`, up to the buffers handed to the graphics API: the
vertex vector and the index vector. -/
def BuildArbitraryPlane (a_fSize : F) (a_iVertsWidth a_iVertsLength : Int) (dflt : Vertex F) :
    Option (List (Vertex F) × List Int) :=
  match BuildArbitraryPlane.vertexPass a_fSize a_iVertsWidth a_iVertsLength dflt with
  | none => none
  | some aoVertices =>
    some (aoVertices, BuildArbitraryPlane.indexPass a_iVertsWidth a_iVertsLength)

end Plane

end AIE

/-! # Properties -/

namespace AIE

section VectorArithmetic

variable {F : Type} [Field F]

/-! ## Component lemmas used by several results -/

theorem mat4.operator_mul_vec_x (m : mat4 F) (v : vec4 F) :
    (m.operator_mul_vec v).x = m._11 * v.x + m._12 * v.y + m._13 * v.z + m._14 * v.w := rfl

theorem mat4.operator_mul_vec_y (m : mat4 F) (v : vec4 F) :
    (m.operator_mul_vec v).y = m._21 * v.x + m._22 * v.y + m._23 * v.z + m._24 * v.w := rfl

theorem mat4.operator_mul_vec_w (m : mat4 F) (v : vec4 F) :
    (m.operator_mul_vec v).w = m._41 * v.x + m._42 * v.y + m._43 * v.z + m._44 * v.w := rfl

/-! ## C4: scalar multiplication and unary minus -/

/-- C4, as stated, fails: at `v = (1,2,3,1)` the unary minus returns `w = 1`,
not `0` (the source passes `w` through: `vec4(-x, -y, -z, w)`). -/
theorem C4_neg_keeps_w_counterexample :
    ¬ (((vec4.mk 1 2 3 1 : vec4 ℚ).operator_mul 2).w = 0 ∧
        ((vec4.mk 1 2 3 1 : vec4 ℚ).operator_neg).w = 0) := by
  simp [vec4.operator_neg]

/-- C4 (amended): `v * f` scales `x, y, z` by `f` and has `w = 0`; `-v` negates
`x, y, z` and keeps the `w` of `v`. -/
theorem C4_mul_zeroes_w_neg_keeps_w (v : vec4 F) (f : F) :
    v.operator_mul f = vec4.mk (v.x * f) (v.y * f) (v.z * f) 0 ∧
      v.operator_neg = vec4.mk (-v.x) (-v.y) (-v.z) v.w :=
  ⟨rfl, rfl⟩

/-! ## C5: addition and subtraction keep the left operand's `w` -/

/-- C5: `a + b` and `a - b` are component-wise on `x, y, z` and carry `a.w`;
the `w` of `b` has no influence, and a position (`w = 1`) plus a displacement
(`w = 0`) has `w = 1`. -/
theorem C5_add_sub_keep_left_w (a b : vec4 F) (w' px py pz dx dy dz : F) :
    a.operator_add b = vec4.mk (a.x + b.x) (a.y + b.y) (a.z + b.z) a.w ∧
      a.operator_sub b = vec4.mk (a.x - b.x) (a.y - b.y) (a.z - b.z) a.w ∧
      a.operator_add { b with w := w' } = a.operator_add b ∧
      a.operator_sub { b with w := w' } = a.operator_sub b ∧
      ((vec4.mk px py pz 1).operator_add (vec4.mk dx dy dz 0)).w = 1 :=
  ⟨rfl, rfl, rfl, rfl, rfl⟩

/-! ## C6: the in-place forms -/

/-- C6, as stated, fails for `*=`: at `v = (1,2,3,1)`, `f = 2` the in-place
form leaves `w = 1` while `v * f` has `w = 0`. -/
theorem C6_mul_assign_counterexample :
    (vec4.mk 1 2 3 1 : vec4 ℚ).operator_mul_assign 2 ≠ (vec4.mk 1 2 3 1 : vec4 ℚ).operator_mul 2 := by
  simp [vec4.operator_mul_assign, vec4.operator_mul]

/-- C6 (amended): `v += u` equals `v + u` and `v -= u` equals `v - u` in all
four components; `v *= f` equals `v * f` in `x, y, z` and leaves `w` as it was
(none of the in-place forms writes `w`). -/
theorem C6_in_place_forms (v u : vec4 F) (f : F) :
    v.operator_add_assign u = v.operator_add u ∧
      v.operator_sub_assign u = v.operator_sub u ∧
      v.operator_mul_assign f =
        vec4.mk (v.operator_mul f).x (v.operator_mul f).y (v.operator_mul f).z v.w :=
  ⟨rfl, rfl, rfl⟩

end VectorArithmetic

end AIE

namespace AIE

section Tolerance

variable {F : Type} [LinearOrderedField F]

/-! ## C3: reflexivity of `EqualWithinTolerance` -/

/-- C3, as stated, fails at `eps = 0`: the comparison is the strict
`0 < eps * eps`, so `EqualWithinTolerance(v, v, 0)` is false for both vector
types. -/
theorem C3_zero_tolerance_counterexample :
    (0 : ℚ) ≤ 0 ∧
      EqualWithinTolerance (vec4.mk 1 2 3 1 : vec4 ℚ) (vec4.mk 1 2 3 1) 0 = false ∧
      EqualWithinTolerance2 (vec2.mk 1 2 : vec2 ℚ) (vec2.mk 1 2) 0 = false := by
  simp [EqualWithinTolerance, EqualWithinTolerance2, vec4.operator_sub, vec2.operator_sub,
    vec4.MagnitudeSqr, vec2.MagnitudeSqr]

/-- C3 (amended): for every vector `v` of either type whose difference with
itself is the zero vector (in binary32 this is every `v` with finite
components) and every tolerance `eps`, `EqualWithinTolerance(v, v, eps)` is the
truth value of `0 < eps * eps`, the product being the one the code computes:
true exactly when that product is positive, and false at `eps = 0`. -/
theorem C3_equal_within_tolerance_refl (v2 : vec2 F) (v4 : vec4 F) (eps : F)
    (h2 : v2.operator_sub v2 = vec2.mk 0 0) (h4 : v4.operator_sub v4 = vec4.mk 0 0 0 v4.w) :
    EqualWithinTolerance2 v2 v2 eps = decide (0 < eps * eps) ∧
      EqualWithinTolerance v4 v4 eps = decide (0 < eps * eps) ∧
      EqualWithinTolerance2 v2 v2 0 = false ∧
      EqualWithinTolerance v4 v4 0 = false := by
  simp only [EqualWithinTolerance, EqualWithinTolerance2, h2, h4, vec4.MagnitudeSqr,
    vec2.MagnitudeSqr, mul_zero, add_zero, lt_self_iff_false, decide_False, and_self]

/-- C3 (amended), at `v2 = (1,2)`, `v4 = (1,2,3,1)`, `eps = 1/10000`. -/
theorem C3_equal_within_tolerance_refl_witness :
    EqualWithinTolerance2 (vec2.mk 1 2 : vec2 ℚ) (vec2.mk 1 2) (1 / 10000) =
        decide ((0 : ℚ) < 1 / 10000 * (1 / 10000)) ∧
      EqualWithinTolerance (vec4.mk 1 2 3 1 : vec4 ℚ) (vec4.mk 1 2 3 1) (1 / 10000) =
        decide ((0 : ℚ) < 1 / 10000 * (1 / 10000)) :=
  ⟨(C3_equal_within_tolerance_refl (vec2.mk 1 2) (vec4.mk 1 2 3 1) (1 / 10000)
      (by simp [vec2.operator_sub]) (by simp [vec4.operator_sub])).1,
    (C3_equal_within_tolerance_refl (vec2.mk 1 2) (vec4.mk 1 2 3 1) (1 / 10000)
      (by simp [vec2.operator_sub]) (by simp [vec4.operator_sub])).2.1⟩

end Tolerance

section ViewMatrices

variable {F : Type} [Field F]

/-! ## C10: `ViewLookAt` has the layout of `ToViewMatrix` -/

/-- C10: with `forward = normalise(to - eye)`, `left = normalise(up × forward)`
and `trueUp = forward × left` (not renormalised), `ViewLookAt(eye, to, up)`
leaves the matrix equal, in all sixteen entries, to `ToViewMatrix()` of the
frame whose rows are `left`, `trueUp`, `forward`, `eye`; the previous contents
of the matrix (and of the frame holder `frame0`) do not matter. -/
theorem C10_view_look_at_layout (sqrtf : F → F) (self frame0 : mat4 F) (eye to_ up : vec4 F) :
    mat4.ViewLookAt sqrtf self eye to_ up =
      mat4.ToViewMatrix
        ((((frame0.setRow0 ((up.Cross ((to_.operator_sub eye).Normalise sqrtf)).Normalise sqrtf)).setRow1
              (((to_.operator_sub eye).Normalise sqrtf).Cross
                ((up.Cross ((to_.operator_sub eye).Normalise sqrtf)).Normalise sqrtf))).setRow2
            ((to_.operator_sub eye).Normalise sqrtf)).setRow3 eye) := by
  rfl

/-! ## C2: `Perspective` applied to the near-plane point -/

end ViewMatrices

end AIE

namespace AIE

section Frames

variable {F : Type} [Field F]

/-! ## The rows written by `SetFrame` -/

theorem mat4.SetFrame_row0 (sqrtf : F → F) (self : mat4 F) (position forward up : vec4 F) :
    (mat4.SetFrame sqrtf self position forward up).row0 =
      (up.Cross (forward.Normalise sqrtf)).Normalise sqrtf := rfl

theorem mat4.SetFrame_row1 (sqrtf : F → F) (self : mat4 F) (position forward up : vec4 F) :
    (mat4.SetFrame sqrtf self position forward up).row1 =
      ((forward.Normalise sqrtf).Cross
        ((up.Cross (forward.Normalise sqrtf)).Normalise sqrtf)).Normalise sqrtf := rfl

theorem mat4.SetFrame_row2 (sqrtf : F → F) (self : mat4 F) (position forward up : vec4 F) :
    (mat4.SetFrame sqrtf self position forward up).row2 = forward.Normalise sqrtf := rfl

theorem mat4.SetFrame_row3 (sqrtf : F → F) (self : mat4 F) (position forward up : vec4 F) :
    (mat4.SetFrame sqrtf self position forward up).row3 = position := rfl

/-! ## C1: what the two products of the view matrix with the position are -/

end Frames

section RealFrames

/-! ## C1: `SetFrame` then `ToViewMatrix`, applied to the position -/

end RealFrames

end AIE

namespace AIE

section Normalisation

/-! ## Exact-arithmetic lemmas over the reals

These lemmas, and those of the next two sections, serve the comparison of
`ViewLookAt` with `SetFrame`, which is a statement about exact arithmetic. -/

theorem sumsq3_pos (x y z : ℝ) (h : ¬ (x = 0 ∧ y = 0 ∧ z = 0)) : 0 < x * x + y * y + z * z := by
  have hx := mul_self_nonneg x
  have hy := mul_self_nonneg y
  have hz := mul_self_nonneg z
  rcases lt_or_eq_of_le (add_nonneg (add_nonneg hx hy) hz) with hlt | heq
  · exact hlt
  · exfalso
    apply h
    have hx0 : x * x = 0 := by linarith
    have hy0 : y * y = 0 := by linarith
    have hz0 : z * z = 0 := by linarith
    exact ⟨mul_self_eq_zero.mp hx0, mul_self_eq_zero.mp hy0, mul_self_eq_zero.mp hz0⟩

/-- The squared magnitude of a normalised vector is `1` as soon as the
squared magnitude of the original is positive. -/
theorem vec4.Normalise_MagnitudeSqr (v : vec4 ℝ) (h : 0 < v.x * v.x + v.y * v.y + v.z * v.z) :
    (v.Normalise Real.sqrt).MagnitudeSqr = 1 := by
  have hm : 0 < Real.sqrt (v.x * v.x + v.y * v.y + v.z * v.z) := Real.sqrt_pos.mpr h
  have hmm := Real.mul_self_sqrt h.le
  simp only [vec4.Normalise, vec4.MagnitudeSqr]
  have e : v.x / Real.sqrt (v.x * v.x + v.y * v.y + v.z * v.z) *
        (v.x / Real.sqrt (v.x * v.x + v.y * v.y + v.z * v.z)) +
      v.y / Real.sqrt (v.x * v.x + v.y * v.y + v.z * v.z) *
        (v.y / Real.sqrt (v.x * v.x + v.y * v.y + v.z * v.z)) +
      v.z / Real.sqrt (v.x * v.x + v.y * v.y + v.z * v.z) *
        (v.z / Real.sqrt (v.x * v.x + v.y * v.y + v.z * v.z)) =
      (v.x * v.x + v.y * v.y + v.z * v.z) /
        (Real.sqrt (v.x * v.x + v.y * v.y + v.z * v.z) *
          Real.sqrt (v.x * v.x + v.y * v.y + v.z * v.z)) := by
    ring
  rw [e, hmm, div_self h.ne']

end Normalisation

end AIE

namespace AIE

section CrossProduct

variable {F : Type} [Field F]

theorem vec4.Cross_Dot_right (a b : vec4 F) : (a.Cross b).Dot b = 0 := by
  simp only [vec4.Cross, vec4.Dot]
  ring

theorem vec4.Dot_comm (a b : vec4 F) : a.Dot b = b.Dot a := by
  simp only [vec4.Dot]
  ring

/-- Lagrange's identity for the `Cross` of the source. -/
theorem vec4.Cross_MagnitudeSqr (a b : vec4 F) :
    (a.Cross b).MagnitudeSqr = a.MagnitudeSqr * b.MagnitudeSqr - a.Dot b * a.Dot b := by
  simp only [vec4.Cross, vec4.Dot, vec4.MagnitudeSqr]
  ring

theorem vec4.Normalise_Dot (sqrtf : F → F) (v u : vec4 F) :
    (v.Normalise sqrtf).Dot u = v.Dot u / sqrtf v.MagnitudeSqr := by
  simp only [vec4.Normalise, vec4.Dot, vec4.MagnitudeSqr]
  ring

/-- Scaling the right operand of `Cross` by `1/m` scales the product. -/
theorem vec4.Cross_Normalise (sqrtf : F → F) (a b : vec4 F) :
    a.Cross (b.Normalise sqrtf) =
      vec4.mk ((a.Cross b).x / sqrtf b.MagnitudeSqr) ((a.Cross b).y / sqrtf b.MagnitudeSqr)
        ((a.Cross b).z / sqrtf b.MagnitudeSqr) 0 := by
  simp only [vec4.Normalise, vec4.Cross, vec4.MagnitudeSqr, vec4.mk.injEq, and_true]
  refine ⟨?_, ?_, ?_⟩ <;> ring

end CrossProduct

end AIE

namespace AIE

section OrthonormalFrame

theorem vec4.MagnitudeSqr_nonneg (v : vec4 ℝ) : 0 ≤ v.MagnitudeSqr := by
  simp only [vec4.MagnitudeSqr]
  nlinarith [mul_self_nonneg v.x, mul_self_nonneg v.y, mul_self_nonneg v.z]

/-- A unit vector with `w = 0` is a fixed point of `Normalise`. -/
theorem vec4.Normalise_of_unit (v : vec4 ℝ) (h : v.MagnitudeSqr = 1) (hw : v.w = 0) :
    v.Normalise Real.sqrt = v := by
  obtain ⟨x, y, z, w⟩ := v
  simp only [vec4.MagnitudeSqr] at h
  simp only at hw
  subst hw
  simp only [vec4.Normalise, h, Real.sqrt_one, div_one]

/-- Dividing `x, y, z` by a positive number first does not change the result
of `Normalise`. -/
theorem vec4.Normalise_scaled (d : vec4 ℝ) (m w : ℝ) (hm : 0 < m) :
    (vec4.mk (d.x / m) (d.y / m) (d.z / m) w).Normalise Real.sqrt = d.Normalise Real.sqrt := by
  have hs : (d.x / m) * (d.x / m) + (d.y / m) * (d.y / m) + (d.z / m) * (d.z / m) =
      (d.x * d.x + d.y * d.y + d.z * d.z) / (m * m) := by
    ring
  have hsqrt : Real.sqrt ((d.x * d.x + d.y * d.y + d.z * d.z) / (m * m)) =
      Real.sqrt (d.x * d.x + d.y * d.y + d.z * d.z) / m := by
    have hd0 : 0 ≤ d.x * d.x + d.y * d.y + d.z * d.z := vec4.MagnitudeSqr_nonneg d
    rw [Real.sqrt_div hd0, Real.sqrt_mul_self hm.le]
  simp only [vec4.Normalise, hs, hsqrt, vec4.mk.injEq, and_true]
  exact ⟨div_div_div_cancel_right₀ hm.ne' _ _, div_div_div_cancel_right₀ hm.ne' _ _,
    div_div_div_cancel_right₀ hm.ne' _ _⟩

end OrthonormalFrame

end AIE

namespace AIE

section Projections

variable {F : Type} [Field F]

/-! ## C13: the entries written by the six-argument `Orthographic` -/

/-- C13: for every `left, right, top, bottom, near, far`, and whatever the
matrix held before, `Orthographic` leaves `_11 = 2/(right-left)`,
`_22 = 2/(top-bottom)`, `_33 = -2/(far-near)`, `_41 = -(right+left)/(right-left)`,
`_42 = -(top+bottom)/(top-bottom)`, `_43 = -(far+near)/(far-near)`, `_44 = 1`
and every other entry `0`. -/
theorem C13_orthographic_entries (self : mat4 F) (left right top bottom near far : F) :
    mat4.Orthographic self left right top bottom near far =
      mat4.mk (2 / (right - left)) 0 0 0
        0 (2 / (top - bottom)) 0 0
        0 0 (-2 / (far - near)) 0
        (-(right + left) / (right - left)) (-(top + bottom) / (top - bottom))
          (-(far + near) / (far - near)) 1 := by
  simp only [mat4.Orthographic, mat4.mk.injEq, neg_div, and_self]

end Projections

section PerspectiveEntries

variable {F : Type} [Field F] [CharZero F]

/-! ## C14: the entries written by `Perspective` -/

/-- C14: for every `verticalFOV, aspect, near, far`, and whatever the matrix
held before, `Perspective` leaves `_11 = cot(fov/2)/aspect`, `_22 = cot(fov/2)`,
`_33 = far/(far-near)`, `_34 = 1`, `_43 = near*far/(near-far)`, `_44 = 0` and
every other entry `0`, where `cot(a) = 1/tan(a)`. -/
theorem C14_perspective_entries (tanf : F → F) (self : mat4 F) (fov aspect near far : F) :
    mat4.Perspective tanf self fov aspect near far =
      mat4.mk (1 / tanf (fov / 2) / aspect) 0 0 0
        0 (1 / tanf (fov / 2)) 0 0
        0 0 (far / (far - near)) 1
        0 0 (near * far / (near - far)) 0 := by
  have h : (0.5 : F) * fov = fov / 2 := by
    norm_num
    ring
  simp only [mat4.Perspective, h]

/-- C14, over `ℚ` (characteristic zero) at `Perspective(2, 3, 1, 100)`, with
the identity as a stand-in for `tanf`. -/
theorem C14_perspective_entries_witness :
    mat4.Perspective (fun a : ℚ => a) (mat4.mk 7 7 7 7 7 7 7 7 7 7 7 7 7 7 7 7) 2 3 1 100 =
      mat4.mk (1 / (2 / 2) / 3) 0 0 0
        0 (1 / (2 / 2)) 0 0
        0 0 (100 / (100 - 1)) 1
        0 0 (1 * 100 / (1 - 100)) 0 :=
  @C14_perspective_entries ℚ _ _ (fun a : ℚ => a) (mat4.mk 7 7 7 7 7 7 7 7 7 7 7 7 7 7 7 7) 2 3 1 100

end PerspectiveEntries

end AIE

namespace AIE

section OrthographicDepth

/-! ## C11: the four-argument `Orthographic` and the depth range -/

end OrthographicDepth

section OrthographicDepthEntries

variable {F : Type} [Field F]

end OrthographicDepthEntries

end AIE

namespace AIE

section AxisRotation

variable {F : Type} [Field F]

/-! ## C15: `RotateAxis` and Rodrigues' formula -/

end AxisRotation

section Products

variable {F : Type} [Field F]

/-! ## C16: the matrix-matrix product -/

/-- C16: for every `A`, `B` and every `i, j` in `0..3`,
`(A * B)[i][j] = Σ_k A[i][k] * B[k][j]`. -/
theorem C16_matrix_product (A B : mat4 F) (i j : Fin 4) :
    (A.operator_mul B).mm i j = ∑ k : Fin 4, A.mm i k * B.mm k j := by
  rw [Fin.sum_univ_four]
  fin_cases i <;> fin_cases j <;> rfl

/-! ## C17: the matrix-vector product -/

/-- C17: for every matrix `M`, vector `v = (x,y,z,w)` and `i` in `0..3`,
`(M * v)[i] = M[i][0]*x + M[i][1]*y + M[i][2]*z + M[i][3]*w`; the `w` of `v`
takes part with coefficient `M[i][3]`, while `Dot` leaves it out. -/
theorem C17_matrix_vector_product (M : mat4 F) (v u : vec4 F) (i : Fin 4) :
    (M.operator_mul_vec v).operator_float_ptr i =
        M.mm i 0 * v.x + M.mm i 1 * v.y + M.mm i 2 * v.z + M.mm i 3 * v.w ∧
      u.Dot v = u.x * v.x + u.y * v.y + u.z * v.z := by
  refine ⟨?_, rfl⟩
  fin_cases i <;> rfl

end Products

end AIE

namespace AIE

section Setters

variable {F : Type} [Field F]

/-! ## C18: `RotationEuler` -/

/-- C18: for every `bank`, `heading`, `attitude`, and whatever the matrix (and
the three default-constructed locals) held before, after `RotationEuler` the
matrix is `RotateX(bank) * RotateY(heading) * RotateZ(attitude)`, the product
being taken from the left: `(X * Y) * Z`; the matrices `a`, `b`, `c` on which
the three rotations are set are arbitrary. -/
theorem C18_rotation_euler (sinf cosf : F → F) (self x0 y0 z0 a b c : mat4 F)
    (bank heading attitude : F) :
    mat4.RotationEuler sinf cosf self x0 y0 z0 bank heading attitude =
      ((a.RotateX sinf cosf bank).operator_mul (b.RotateY sinf cosf heading)).operator_mul
        (c.RotateZ sinf cosf attitude) := by
  have hx : x0.RotateX sinf cosf bank = a.RotateX sinf cosf bank := rfl
  have hy : y0.RotateY sinf cosf heading = b.RotateY sinf cosf heading := rfl
  have hz : z0.RotateZ sinf cosf attitude = c.RotateZ sinf cosf attitude := rfl
  simp only [mat4.RotationEuler, hx, hy, hz]

/-! ## C19: the setters overwrite -/

/-- C19: for every two matrices `M1`, `M2` and every argument, `RotateX`,
`RotateY`, `RotateZ`, `RotateAxis` and both forms of `Scale` leave `M1` and
`M2` equal in all sixteen entries; `Scale` yields `diag(x, y, z, 1)`, with
`z = 1` for the `vec2` form. -/
theorem C19_setters_overwrite (sinf cosf : F → F) (M1 M2 : mat4 F) (rad : F) (axis v4 : vec4 F)
    (v2 : vec2 F) :
    M1.RotateX sinf cosf rad = M2.RotateX sinf cosf rad ∧
      M1.RotateY sinf cosf rad = M2.RotateY sinf cosf rad ∧
      M1.RotateZ sinf cosf rad = M2.RotateZ sinf cosf rad ∧
      M1.RotateAxis sinf cosf rad axis = M2.RotateAxis sinf cosf rad axis ∧
      M1.Scale2 v2 = M2.Scale2 v2 ∧
      M1.Scale v4 = M2.Scale v4 ∧
      M1.Scale v4 = mat4.mk v4.x 0 0 0 0 v4.y 0 0 0 0 v4.z 0 0 0 0 1 ∧
      M1.Scale2 v2 = mat4.mk v2.x 0 0 0 0 v2.y 0 0 0 0 1 0 0 0 0 1 :=
  ⟨rfl, rfl, rfl, rfl, rfl, rfl, rfl, rfl⟩

end Setters

section TransposeInvolution

variable {F : Type}

/-! ## C20: `Transpose` -/

/-- C20: for every matrix `M`, `Transpose(Transpose(M)) = M` in all sixteen
entries and `Transpose(M)[i][j] = M[j][i]`; `Transpose` is a `const` member
that returns a new matrix, so its only output is the returned value and `M`
is the same before and after. -/
theorem C20_transpose_involution (M : mat4 F) (i j : Fin 4) :
    M.Transpose.Transpose = M ∧ M.Transpose.mm i j = M.mm j i := by
  refine ⟨rfl, ?_⟩
  fin_cases i <;> fin_cases j <;> rfl

end TransposeInvolution

end AIE

namespace AIE

section DotAndCross

variable {F : Type} [Field F]

/-! ## C21: `Cross` is anti-commutative -/

/-- C21: for every `a`, `b`, `a.Cross(b)` equals `-(b.Cross(a))` in all four
components, the right side being taken with the unary minus of `vec4` (which
keeps the `w = 0` of the cross product). -/
theorem C21_cross_anticomm (a b : vec4 F) : a.Cross b = (b.Cross a).operator_neg := by
  simp only [vec4.Cross, vec4.operator_neg, vec4.mk.injEq, and_true]
  refine ⟨?_, ?_, ?_⟩ <;> ring

/-! ## C23: `Dot` is commutative and ignores `w` -/

/-- C23: for every `a`, `b` of either vector type, the member and the free
`Dot` are commutative; for `vec4` the value is `a.x*b.x + a.y*b.y + a.z*b.z`
whatever the `w` of either operand (replacing them by any `wa`, `wb` changes
nothing), and the free functions return what the members return. -/
theorem C23_dot_comm (a b : vec4 F) (p q : vec2 F) (wa wb : F) :
    a.Dot b = b.Dot a ∧ Dot a b = Dot b a ∧
      p.Dot q = q.Dot p ∧ Dot2 p q = Dot2 q p ∧
      a.Dot b = a.x * b.x + a.y * b.y + a.z * b.z ∧
      Dot a b = a.x * b.x + a.y * b.y + a.z * b.z ∧
      vec4.Dot { a with w := wa } { b with w := wb } = a.Dot b ∧
      Dot { a with w := wa } { b with w := wb } = Dot a b ∧
      Dot a b = a.Dot b ∧ Dot2 p q = p.Dot q := by
  refine ⟨?_, ?_, ?_, ?_, rfl, rfl, rfl, rfl, rfl, rfl⟩ <;>
    simp only [Dot, Dot2, vec4.Dot, vec2.Dot] <;> ring

end DotAndCross

section IdentityRotation

/-! ## C24: `RotateX(0)` -/

/-- C24: after `RotateX(0)` on any matrix, `_11 = _22 = _33 = _44 = 1` and the
other twelve entries are `0` (with `sinf`, `cosf` the real sine and cosine). -/
theorem C24_rotate_x_zero (self : mat4 ℝ) :
    self.RotateX Real.sin Real.cos 0 = mat4.mk 1 0 0 0 0 1 0 0 0 0 1 0 0 0 0 1 := by
  simp only [mat4.RotateX, Real.sin_zero, Real.cos_zero, neg_zero]

end IdentityRotation

section AxisAndPerAxis

variable {F : Type} [Field F]

/-! ## C28: the two products are compatible and associative -/

/-- C28: for every `A`, `B`, `C` and every vector `v`,
`(A * B) * v = A * (B * v)` in all four components and
`(A * B) * C = A * (B * C)` in all sixteen entries. -/
theorem C28_products_assoc (A B C : mat4 F) (v : vec4 F) :
    (A.operator_mul B).operator_mul_vec v = A.operator_mul_vec (B.operator_mul_vec v) ∧
      (A.operator_mul B).operator_mul C = A.operator_mul (B.operator_mul C) := by
  constructor
  · simp only [mat4.operator_mul, mat4.operator_mul_vec, mat4.mm, vec4.mk.injEq]
    refine ⟨?_, ?_, ?_, ?_⟩ <;> ring
  · simp only [mat4.operator_mul, mat4.mm, mat4.mk.injEq]
    refine ⟨?_, ?_, ?_, ?_, ?_, ?_, ?_, ?_, ?_, ?_, ?_, ?_, ?_, ?_, ?_, ?_⟩ <;> ring

end AxisAndPerAxis

end AIE

namespace AIE

section LookAtAsFrame

/-- In `SetFrame` the cross product of the normalised forward axis with the
normalised right axis is already of unit length, so normalising it changes
nothing. -/
theorem mat4.SetFrame_up_normalised (forward up : vec4 ℝ)
    (hf : ¬ (forward.x = 0 ∧ forward.y = 0 ∧ forward.z = 0))
    (hu : up.Cross forward ≠ vec4.mk 0 0 0 0) :
    ((forward.Normalise Real.sqrt).Cross
        ((up.Cross (forward.Normalise Real.sqrt)).Normalise Real.sqrt)).Normalise Real.sqrt =
      (forward.Normalise Real.sqrt).Cross
        ((up.Cross (forward.Normalise Real.sqrt)).Normalise Real.sqrt) := by
  have hfpos : 0 < forward.x * forward.x + forward.y * forward.y + forward.z * forward.z :=
    sumsq3_pos _ _ _ hf
  have hm : 0 < Real.sqrt forward.MagnitudeSqr := Real.sqrt_pos.mpr hfpos
  have hf1 : (forward.Normalise Real.sqrt).MagnitudeSqr = 1 :=
    vec4.Normalise_MagnitudeSqr forward hfpos
  have hd : ¬ ((up.Cross forward).x = 0 ∧ (up.Cross forward).y = 0 ∧
      (up.Cross forward).z = 0) := by
    rintro ⟨hx, hy, hz⟩
    apply hu
    have hcw : (up.Cross forward).w = 0 := rfl
    cases hc : up.Cross forward with
    | mk cx cy cz cw =>
      rw [hc] at hx hy hz hcw
      simp only at hx hy hz hcw
      rw [hx, hy, hz, hcw]
  have hdpos := sumsq3_pos _ _ _ hd
  have hright : (up.Cross (forward.Normalise Real.sqrt)).Normalise Real.sqrt =
      (up.Cross forward).Normalise Real.sqrt := by
    rw [vec4.Cross_Normalise]
    exact vec4.Normalise_scaled (up.Cross forward) _ 0 hm
  have hr1 : ((up.Cross forward).Normalise Real.sqrt).MagnitudeSqr = 1 :=
    vec4.Normalise_MagnitudeSqr _ hdpos
  have hrf : ((up.Cross forward).Normalise Real.sqrt).Dot (forward.Normalise Real.sqrt) = 0 := by
    rw [vec4.Normalise_Dot, vec4.Dot_comm, vec4.Normalise_Dot, vec4.Dot_comm,
      vec4.Cross_Dot_right]
    simp
  rw [hright]
  apply vec4.Normalise_of_unit _ _ rfl
  rw [vec4.Cross_MagnitudeSqr, hf1, hr1, vec4.Dot_comm, hrf]
  norm_num

/-! ## C25: `ViewLookAt` is `SetFrame` followed by `ToViewMatrix` -/

/-- C25: for every `eye`, `to`, `up` with `to - eye` non-zero in `(x,y,z)` and
`up × (to - eye)` non-zero, the matrix set by `ViewLookAt(eye, to, up)` equals,
in all sixteen entries, `F.ToViewMatrix()` for the frame `F` set by
`SetFrame(eye, to - eye, up)`; the previous contents of either matrix do not
matter, and neither does the `w` of `eye`. -/
theorem C25_view_look_at_is_set_frame (self frame0 : mat4 ℝ) (eye to_ up : vec4 ℝ) (w' : ℝ)
    (hf : ¬ ((to_.operator_sub eye).x = 0 ∧ (to_.operator_sub eye).y = 0 ∧
      (to_.operator_sub eye).z = 0))
    (hu : up.Cross (to_.operator_sub eye) ≠ vec4.mk 0 0 0 0) :
    mat4.ViewLookAt Real.sqrt self eye to_ up =
        (mat4.SetFrame Real.sqrt frame0 eye (to_.operator_sub eye) up).ToViewMatrix ∧
      mat4.ViewLookAt Real.sqrt self { eye with w := w' } to_ up =
        mat4.ViewLookAt Real.sqrt self eye to_ up := by
  have h := mat4.SetFrame_up_normalised (to_.operator_sub eye) up hf hu
  refine ⟨?_, rfl⟩
  simp only [mat4.ToViewMatrix, mat4.SetFrame_row0, mat4.SetFrame_row1, mat4.SetFrame_row2,
    mat4.SetFrame_row3, h]
  rfl

/-- C25, at `eye = (1,2,3,1)`, `to = (1,2,5,1)`, `up = (0,1,0,0)`. -/
theorem C25_view_look_at_is_set_frame_witness :
    mat4.ViewLookAt Real.sqrt (mat4.mk 0 0 0 0 0 0 0 0 0 0 0 0 0 0 0 0) (vec4.mk 1 2 3 1)
        (vec4.mk 1 2 5 1) (vec4.mk 0 1 0 0) =
      (mat4.SetFrame Real.sqrt (mat4.mk 7 7 7 7 7 7 7 7 7 7 7 7 7 7 7 7) (vec4.mk 1 2 3 1)
        ((vec4.mk 1 2 5 1 : vec4 ℝ).operator_sub (vec4.mk 1 2 3 1)) (vec4.mk 0 1 0 0)).ToViewMatrix :=
  (C25_view_look_at_is_set_frame (mat4.mk 0 0 0 0 0 0 0 0 0 0 0 0 0 0 0 0)
    (mat4.mk 7 7 7 7 7 7 7 7 7 7 7 7 7 7 7 7) (vec4.mk 1 2 3 1) (vec4.mk 1 2 5 1)
    (vec4.mk 0 1 0 0) 0 (by simp [vec4.operator_sub]; norm_num)
    (by simp [vec4.operator_sub, vec4.Cross]; norm_num)).1

end LookAtAsFrame

end AIE

namespace AIE

section PlaneVertices

variable {F : Type} [Field F]

/-! ## C29: the vertex writes of `BuildArbitraryPlane` -/

/-- C29 fails on the code: the vertex pass subscripts `z*a_iVertsLength + x`
where the vertex just pushed has index `z*a_iVertsWidth + x` (the index pass
uses `z*a_iVertsWidth + x`).  For `a_iVertsWidth = 2`, `a_iVertsLength = 3`
the iteration `z = 1`, `x = 0` pushes the third vertex and then subscripts
index `3`, outside the vector, so the pass (and the whole function) has no
defined result.  For `a_iVertsWidth = 3`, `a_iVertsLength = 2` the iteration
`z = 1`, `x = 0` pushes the fourth vertex and writes index `2`: the subscript
is in bounds, but the vertex just pushed (index `3`) keeps its default
contents and the third vertex is overwritten. -/
theorem C29_vertex_write_out_of_bounds (a_fSize : F) (dflt v0 v1 v2 : Vertex F) :
    BuildArbitraryPlane.vertexBody a_fSize (a_fSize / 2) 2 3 dflt [v0, v1] 1 0 = none ∧
      BuildArbitraryPlane.vertexPass a_fSize 2 3 dflt = none ∧
      BuildArbitraryPlane a_fSize 2 3 dflt = none ∧
      (BuildArbitraryPlane.vertexBody a_fSize (a_fSize / 2) 3 2 dflt [v0, v1, v2] 1 0).map
          (fun aoVertices => (aoVertices.length, aoVertices.get? 3)) = some (4, some dflt) ∧
      (BuildArbitraryPlane.vertexBody a_fSize (a_fSize / 2) 3 2 dflt [v0, v1, v2] 1 0).map
          (fun aoVertices => aoVertices.get? 2) =
        some (some (Vertex.mk (vec4.mk (0 - a_fSize / 2) 0
          (a_fSize * (((1 : Int) : F) / (((2 : Int) - 1 : Int) : F)) - a_fSize / 2) 1)
          (vec2.mk 0 (a_fSize * (((1 : Int) : F) / (((2 : Int) - 1 : Int) : F)) / a_fSize)))) :=
  ⟨rfl, rfl, rfl, rfl, rfl⟩

end PlaneVertices

end AIE
